import Mathlib

set_option maxRecDepth 10000

/-
  Verification of the HID license-provisioning protocol core
  (hid-client.ts: AbstractHIDClient, DongleClient, TargetDeviceClient).

  The embedding models bytes as `Nat` (with `< 256` hypotheses where byte
  range matters), byte buffers as `List Nat`, and each throw site of the
  TypeScript code as a distinct `HidError` constructor named after the
  thrown message.  Fallible operations return `Except HidError _`; operations
  that write to the transport additionally return the list of
  (reportId, bytes) transport calls actually performed.
-/

namespace LicenceTool

/-- Dongle report ids, from constants.ts `HID_CONSTANTS.REPORT_ID`. -/
def GET_LICENSE_IN : Nat := 0x01

/-- Outbound license-request report id (constants.ts). -/
def GET_LICENSE_OUT : Nat := 0x02

/-- Inbound counter-response report id (constants.ts). -/
def GET_COUNTER_IN : Nat := 0x03

/-- Outbound counter-request report id (constants.ts). -/
def GET_COUNTER_OUT : Nat := 0x04

/-- Target store-license report id (constants.ts `TARGET_REPORT_ID.STORE_LICENSE`). -/
def STORE_LICENSE : Nat := 0x82

/-- One constructor per distinct failure site of the client code:
    `deviceNotConnected` is the "Device not connected" throw in `sendReport`;
    `deviceDisconnected` is the "Device disconnected" rejection at the top of
    `receivePacket`; `timeout` is the `setTimeout` rejection; `uuidLength` is
    "UUID must be 128 bytes."; `licenseLength` is "License must be 256 bytes";
    `rangeError` is the RangeError the JS runtime raises when
    `TypedArray.set` would write past the end of the target buffer. -/
inductive HidError where
  | deviceNotConnected
  | deviceDisconnected
  | timeout
  | uuidLength
  | licenseLength
  | rangeError
  deriving DecidableEq

/-- JS `buf.set(data, off)` after its bounds check has passed: overwrite
    `buf[off .. off + data.length)` with `data`.  The RangeError raised when
    `off + data.length > buf.length` is modelled at the call sites. -/
def setBytes (buf : List Nat) (off : Nat) (data : List Nat) : List Nat :=
  buf.take off ++ data ++ buf.drop (off + data.length)

/-- The mutable state of the reassembly loop in
    `DongleClient.receiveFragmentedData`: the output buffer (`fullBuffer`)
    and the current write offset. -/
structure RxState where
  buffer : List Nat
  offset : Nat
  deriving DecidableEq

/-- One iteration of the reassembly loop body:
    `length = packet[0]`, `data = packet.slice(1, 1 + length)`,
    `fullBuffer.set(data, offset)` (RangeError when the write would
    overflow the buffer), `offset += length`. -/
def rxStep (st : RxState) (packet : List Nat) : Except HidError RxState :=
  let len := packet.headD 0
  let data := (packet.drop 1).take len
  if st.buffer.length < st.offset + data.length then
    Except.error HidError.rangeError
  else
    Except.ok { buffer := setBytes st.buffer st.offset data, offset := st.offset + len }

/-- The `for (let i = 0; i < count; i++)` reassembly loop.  Each iteration
    awaits the next matching inbound report; if none is left to arrive the
    `receivePacket` deadline elapses and the whole loop rejects with the
    timeout error. -/
def rxLoop : Nat → List (List Nat) → RxState → Except HidError RxState
  | 0, _, st => Except.ok st
  | Nat.succ _, [], _ => Except.error HidError.timeout
  | Nat.succ n, packet :: rest, st =>
    match rxStep st packet with
    | Except.error e => Except.error e
    | Except.ok st2 => rxLoop n rest st2

/-- The length-prefixed receive convention of
    `DongleClient.receiveFragmentedData`, with the scheme's fixed packet
    count and declared total length as parameters (the dongle license scheme
    instantiates them with 5 and 256): a zero-initialised buffer of the
    declared total length is filled packet by packet. -/
def reassembleFromReceive (count total : Nat) (packets : List (List Nat)) :
    Except HidError (List Nat) :=
  (rxLoop count packets { buffer := List.replicate total 0, offset := 0 }).map RxState.buffer

/-- `DongleClient.receiveFragmentedData`: expect 5 packets, 256 bytes.
    `packets` is the ordered list of license-response report payloads that
    arrive before the per-packet deadlines. -/
def receiveFragmentedData (packets : List (List Nat)) : Except HidError (List Nat) :=
  reassembleFromReceive 5 256 packets

/-- One outbound report of `DongleClient.sendFragmentedData`:
    `new Uint8Array(63)` zero-initialised, byte 0 the chunk length, the chunk
    copied at offset 1, the rest left as zero padding. -/
def mkLenPrefixedReport (chunk : List Nat) : List Nat :=
  chunk.length :: (chunk ++ List.replicate (62 - chunk.length) 0)

/-- `DongleClient.sendFragmentedData`: reject any payload that is not exactly
    128 bytes, else split into the slices [0,62), [62,124), [124,128) and emit
    one length-prefixed report per chunk on the license-request id. -/
def sendFragmentedData (payload : List Nat) : Except HidError (List (Nat × List Nat)) :=
  if payload.length ≠ 128 then Except.error HidError.uuidLength
  else
    Except.ok ([payload.take 62, (payload.drop 62).take 62, (payload.drop 124).take 4].map
      (fun chunk => (GET_LICENSE_OUT, mkLenPrefixedReport chunk)))

/-- The UUID-for-license exchange as the UI flow performs it
    (license-flow.tsx / auto-license page): `sendFragmentedData` for the uuid
    followed by `receiveFragmentedData` of the license-response reports. -/
def exchangeUuidForLicense (uuid : List Nat) (packets : List (List Nat)) :
    Except HidError (List Nat) :=
  match sendFragmentedData uuid with
  | Except.error e => Except.error e
  | Except.ok _ => receiveFragmentedData packets

/-- The counter decode in `DongleClient.getCounter`:
    `cLow = response[0]`, `cHigh = response[1]`,
    `counterValue = cLow | (cHigh << 8)` (JS 32-bit ops coincide with the
    unbounded ones for byte-sized operands). -/
def decodeCounter (response : List Nat) : Nat :=
  (response.getD 0 0) ||| ((response.getD 1 0) <<< 8)

/-- An occurrence observable by a pending `receivePacket` wait: an inbound
    `inputreport` event carrying a report id and payload, or the peripheral
    going away.  Each is tagged with its arrival time (milliseconds since the
    wait was registered) when fed to the wait model. -/
inductive HidEv where
  | report (id : Nat) (data : List Nat)
  | disconnect
  deriving DecidableEq

/-- State of one `receivePacket` promise: still waiting (listener and timer
    registered), or resolved with its final outcome (listener removed, timer
    cleared by `cleanup`). -/
inductive WaitState where
  | waiting
  | resolved (r : Except HidError (List Nat))

/-- How one timed occurrence affects an outstanding `receivePacket` wait.
    A resolved wait is inert (`cleanup` already deregistered everything).
    While waiting: if the occurrence happens at or after the deadline the
    `setTimeout` callback has already rejected the promise with the timeout
    error and removed the handler; otherwise a matching report resolves the
    promise with its payload, a non-matching report is ignored by the
    handler's id test, and a disconnect is ignored because `receivePacket`
    registers no disconnect listener. -/
def waitStep (expectedId deadline : Nat) (st : WaitState) (ev : Nat × HidEv) : WaitState :=
  match st with
  | WaitState.resolved r => WaitState.resolved r
  | WaitState.waiting =>
    if deadline ≤ ev.fst then WaitState.resolved (Except.error HidError.timeout)
    else
      match ev.snd with
      | HidEv.report id data =>
        if id = expectedId then WaitState.resolved (Except.ok data) else WaitState.waiting
      | HidEv.disconnect => WaitState.waiting

/-- `AbstractHIDClient.receivePacket`: reject immediately with the
    "Device disconnected" error when no open device is held, else register
    the handler and timer and let the chronologically ordered occurrences
    drive the wait; if nothing resolved it by the end of the trace the timer
    eventually fires with the timeout error. -/
def receivePacket (opened : Bool) (expectedId deadline : Nat)
    (events : List (Nat × HidEv)) : Except HidError (List Nat) :=
  if opened then
    match events.foldl (waitStep expectedId deadline) WaitState.waiting with
    | WaitState.waiting => Except.error HidError.timeout
    | WaitState.resolved r => r
  else Except.error HidError.deviceDisconnected

/-- `AbstractHIDClient.sendReport`: throw "Device not connected" when no open
    device is held (no transport call), else perform exactly one transport
    call with the given report id and bytes. -/
def sendReport (opened : Bool) (reportId : Nat) (data : List Nat) :
    Except HidError Unit × List (Nat × List Nat) :=
  if opened then (Except.ok (), [(reportId, data)])
  else (Except.error HidError.deviceNotConnected, [])

/-- A sequential `for`/`while` loop of `sendReport` calls (used by
    `sendFragmentedData` and the chunked `writeLicense`): the first failing
    send aborts the loop having performed no transport call of its own. -/
def sendAll (opened : Bool) (reports : List (Nat × List Nat)) :
    Except HidError Unit × List (Nat × List Nat) :=
  match reports with
  | [] => (Except.ok (), [])
  | r :: rest =>
    match sendReport opened r.fst r.snd with
    | (Except.error e, _) => (Except.error e, [])
    | (Except.ok _, tx) =>
      match sendAll opened rest with
      | (res, txs) => (res, tx ++ txs)

/-- `DongleClient.sendFragmentedData` including its transport sends: the
    length check runs first, then the three framed reports are sent one by
    one through `sendReport`. -/
def sendFragmentedDataOp (opened : Bool) (payload : List Nat) :
    Except HidError Unit × List (Nat × List Nat) :=
  match sendFragmentedData payload with
  | Except.error e => (Except.error e, [])
  | Except.ok reports => sendAll opened reports

/-- `DongleClient.getCounter`: send a zero-filled 63-byte counter request,
    then await the counter response with a 2000 ms deadline and decode it. -/
def getCounter (opened : Bool) (events : List (Nat × HidEv)) :
    Except HidError Nat × List (Nat × List Nat) :=
  match sendReport opened GET_COUNTER_OUT (List.replicate 63 0) with
  | (Except.error e, tx) => (Except.error e, tx)
  | (Except.ok _, tx) =>
    match receivePacket opened GET_COUNTER_IN 2000 events with
    | Except.error e => (Except.error e, tx)
    | Except.ok response => (Except.ok (decodeCounter response), tx)

/-- `TargetDeviceClient.writeLicense`, single-report variant
    (src/src/lib/hid/hid-client.ts): length check, then the whole 256 bytes
    as one report on the store-license id. -/
def writeLicense (opened : Bool) (license : List Nat) :
    Except HidError Unit × List (Nat × List Nat) :=
  if license.length ≠ 256 then (Except.error HidError.licenseLength, [])
  else sendReport opened STORE_LICENSE license

/-- The `while (offset < license.length)` loop of the chunked
    `TargetDeviceClient.writeLicense` variant, expressed on the not yet
    consumed suffix of the license: each iteration takes
    `license.slice(offset, offset + 63)`, pads it into a zero-initialised
    63-byte report, and advances by the chunk length. -/
def chunkLoop : List Nat → List (Nat × List Nat)
  | [] => []
  | x :: rest =>
    let chunk := (x :: rest).take 63
    (STORE_LICENSE, chunk ++ List.replicate (63 - chunk.length) 0) :: chunkLoop (rest.drop 62)
termination_by l => l.length
decreasing_by simp; omega

/-- `TargetDeviceClient.writeLicense`, chunked variant (the near-duplicate
    client source): length check, then the ≤63-byte chunks sent sequentially
    (the inter-chunk 20 ms delay has no observable effect in this model). -/
def writeLicenseChunked (opened : Bool) (license : List Nat) :
    Except HidError Unit × List (Nat × List Nat) :=
  if license.length ≠ 256 then (Except.error HidError.licenseLength, [])
  else sendAll opened (chunkLoop license)

/-! Helper lemmas shared by the claim theorems. -/

/-- Bit-or of a byte with a value shifted past it is plain addition. -/
lemma lor_shiftLeft_eq_add {a b : Nat} (ha : a < 256) :
    a ||| (b <<< 8) = a + 256 * b := by
  have ha' : a < 2 ^ 8 := by omega
  rw [Nat.shiftLeft_eq, Nat.or_comm, Nat.mul_comm, ← Nat.mul_add_lt_is_or ha']
  omega

/-- An in-bounds `setBytes` write preserves the buffer length. -/
lemma setBytes_length {buf data : List Nat} {off : Nat}
    (h : off + data.length ≤ buf.length) :
    (setBytes buf off data).length = buf.length := by
  simp [setBytes]
  omega

/-- Definitional unfolding of one reassembly loop iteration. -/
lemma rxLoop_cons (n : Nat) (p : List Nat) (rest : List (List Nat)) (st : RxState) :
    rxLoop (n + 1) (p :: rest) st =
      match rxStep st p with
      | Except.error e => Except.error e
      | Except.ok st2 => rxLoop n rest st2 := rfl

/-- A successful reassembly iteration preserves the buffer length. -/
lemma rxStep_ok_length {st st2 : RxState} {p : List Nat}
    (h : rxStep st p = Except.ok st2) : st2.buffer.length = st.buffer.length := by
  rw [rxStep] at h
  split at h
  · exact absurd h (by simp)
  · next hc =>
    cases h
    exact setBytes_length (by omega)

/-- A successful reassembly loop preserves the buffer length. -/
lemma rxLoop_ok_length {n : Nat} {ps : List (List Nat)} {st st2 : RxState}
    (h : rxLoop n ps st = Except.ok st2) : st2.buffer.length = st.buffer.length := by
  induction n generalizing ps st with
  | zero =>
    rw [rxLoop] at h
    cases h
    rfl
  | succ n ih =>
    cases ps with
    | nil => rw [rxLoop] at h; exact absurd h (by simp)
    | cons p rest =>
      rw [rxLoop] at h
      cases hstep : rxStep st p with
      | error e => rw [hstep] at h; exact absurd h (by simp)
      | ok stm =>
        rw [hstep] at h
        exact (ih h).trans (rxStep_ok_length hstep)

/-- If exactly as many packets arrive as the loop expects and their declared
    length bytes sum within the buffer, every iteration's write fits and the
    loop succeeds. -/
lemma rxLoop_ok_of_sum {ps : List (List Nat)} {n : Nat} {st : RxState}
    (hn : ps.length = n)
    (hsum : st.offset + (ps.map (fun p => p.headD 0)).sum ≤ st.buffer.length) :
    ∃ st2, rxLoop n ps st = Except.ok st2 := by
  induction ps generalizing n st with
  | nil =>
    cases hn
    exact ⟨st, rfl⟩
  | cons p rest ih =>
    cases hn
    have hdata : ((p.drop 1).take (p.headD 0)).length ≤ p.headD 0 :=
      List.length_take_le _ _
    have hrest : (0 : Nat) ≤ (rest.map (fun p => p.headD 0)).sum := Nat.zero_le _
    have hfit : ¬ st.buffer.length < st.offset + ((p.drop 1).take (p.headD 0)).length := by
      simp only [List.map_cons, List.sum_cons] at hsum
      omega
    have hstep : rxStep st p = Except.ok
        { buffer := setBytes st.buffer st.offset ((p.drop 1).take (p.headD 0)),
          offset := st.offset + p.headD 0 } := by
      rw [rxStep]
      exact if_neg hfit
    simp only [List.length_cons]
    rw [rxLoop_cons, hstep]
    apply ih rfl
    simp only [List.map_cons, List.sum_cons] at hsum
    rw [setBytes_length (by omega)]
    simp only []
    omega

/-- If fewer packets arrive than the loop expects and each declared length
    byte is at most 62 (with room left in the buffer), no iteration overflows
    and the loop ends in the await timeout. -/
lemma rxLoop_timeout_of_short {ps : List (List Nat)} {n : Nat} {st : RxState}
    (hn : ps.length < n) (hlen : ∀ p ∈ ps, p.headD 0 ≤ 62)
    (hroom : st.offset + 62 * ps.length ≤ st.buffer.length) :
    rxLoop n ps st = Except.error HidError.timeout := by
  induction ps generalizing n st with
  | nil =>
    cases n with
    | zero => omega
    | succ m => rfl
  | cons p rest ih =>
    cases n with
    | zero => omega
    | succ m =>
      have hp : p.headD 0 ≤ 62 := hlen p (List.mem_cons_self p rest)
      have hdata : ((p.drop 1).take (p.headD 0)).length ≤ p.headD 0 :=
        List.length_take_le _ _
      have hlen' : (p :: rest).length = rest.length + 1 := rfl
      have hfit : ¬ st.buffer.length < st.offset + ((p.drop 1).take (p.headD 0)).length := by
        rw [hlen'] at hroom
        omega
      have hstep : rxStep st p = Except.ok
          { buffer := setBytes st.buffer st.offset ((p.drop 1).take (p.headD 0)),
            offset := st.offset + p.headD 0 } := by
        rw [rxStep]
        exact if_neg hfit
      rw [rxLoop_cons, hstep]
      apply ih (by omega) (fun q hq => hlen q (List.mem_cons_of_mem p hq))
      rw [setBytes_length (by omega)]
      simp only []
      rw [hlen'] at hroom
      omega

/-- Every send succeeds on an open connection and the transport trace is
    exactly the report list. -/
lemma sendAll_open (rs : List (Nat × List Nat)) : sendAll true rs = (Except.ok (), rs) := by
  induction rs with
  | nil => rfl
  | cons r rest ih => simp [sendAll, sendReport, ih]

/-- The first send on a closed connection throws, so nothing is sent. -/
lemma sendAll_closed {rs : List (Nat × List Nat)} (h : rs ≠ []) :
    sendAll false rs = (Except.error HidError.deviceNotConnected, []) := by
  cases rs with
  | nil => exact absurd rfl h
  | cons r rest => simp [sendAll, sendReport]

/-- A resolved wait absorbs every further occurrence (`cleanup` removed the
    listener and cleared the timer). -/
lemma foldl_waitStep_resolved (expectedId deadline : Nat)
    (r : Except HidError (List Nat)) (events : List (Nat × HidEv)) :
    events.foldl (waitStep expectedId deadline) (WaitState.resolved r) =
      WaitState.resolved r := by
  induction events with
  | nil => rfl
  | cons ev rest ih => simpa [waitStep] using ih

/-- A pre-deadline disconnect leaves any wait state unchanged. -/
lemma waitStep_disconnect {t deadline : Nat} (ht : t < deadline)
    (expectedId : Nat) (st : WaitState) :
    waitStep expectedId deadline st (t, HidEv.disconnect) = st := by
  cases st <;> simp [waitStep, Nat.not_le.2 ht]

/-- If every matching report in the trace arrives at or after the deadline,
    the wait never resolves with a payload: it stays waiting or has already
    timed out. -/
lemma foldl_waitStep_no_early_match {expectedId deadline : Nat} :
    ∀ (events : List (Nat × HidEv)) (st : WaitState),
    (∀ t data, (t, HidEv.report expectedId data) ∈ events → deadline ≤ t) →
    (st = WaitState.waiting ∨ st = WaitState.resolved (Except.error HidError.timeout)) →
    (events.foldl (waitStep expectedId deadline) st = WaitState.waiting ∨
      events.foldl (waitStep expectedId deadline) st =
        WaitState.resolved (Except.error HidError.timeout))
  | [], st, _, hst => by simpa using hst
  | ev :: rest, st, h, hst => by
    apply foldl_waitStep_no_early_match rest _
      (fun t data hmem => h t data (List.mem_cons_of_mem ev hmem))
    rcases hst with rfl | rfl
    · by_cases hdl : deadline ≤ ev.fst
      · right
        simp [waitStep, hdl]
      · cases hev : ev.snd with
        | report id data =>
          by_cases hid : id = expectedId
          · subst hid
            have : deadline ≤ ev.fst :=
              h ev.fst data (by rw [← hev]; exact List.mem_cons_self ev rest)
            omega
          · left
            simp [waitStep, hdl, hev, hid]
        | disconnect =>
          left
          simp [waitStep, hdl, hev]
    · right
      simp [waitStep]

/-- Occurrences that are pre-deadline and not matching reports leave the wait
    outstanding. -/
lemma foldl_waitStep_ignored {expectedId deadline : Nat} :
    ∀ (pre : List (Nat × HidEv)),
    (∀ ev ∈ pre, ev.fst < deadline ∧ ∀ data, ev.snd ≠ HidEv.report expectedId data) →
    pre.foldl (waitStep expectedId deadline) WaitState.waiting = WaitState.waiting
  | [], _ => rfl
  | ev :: rest, h => by
    have hev := h ev (List.mem_cons_self ev rest)
    have hstep : waitStep expectedId deadline WaitState.waiting ev = WaitState.waiting := by
      rw [waitStep]
      rw [if_neg (Nat.not_le.2 hev.1)]
      cases hev2 : ev.snd with
      | report id data =>
        have : id ≠ expectedId := fun hid => hev.2 data (by rw [hev2, hid])
        simp [this]
      | disconnect => rfl
    rw [List.foldl_cons, hstep]
    exact foldl_waitStep_ignored rest (fun e he => h e (List.mem_cons_of_mem ev he))

/-- Chaining form of `rxLoop_cons` when the iteration succeeds. -/
lemma rxLoop_cons_ok {st st2 : RxState} {p : List Nat} (n : Nat) (rest : List (List Nat))
    (h : rxStep st p = Except.ok st2) :
    rxLoop (n + 1) (p :: rest) st = rxLoop n rest st2 := by
  rw [rxLoop_cons, h]

/-- Unfolding equation for the chunked license write loop. -/
lemma chunkLoop_eq {l : List Nat} (h : l ≠ []) :
    chunkLoop l =
      (STORE_LICENSE, l.take 63 ++ List.replicate (63 - (l.take 63).length) 0)
        :: chunkLoop (l.drop 63) := by
  cases l with
  | nil => exact absurd rfl h
  | cons x rest => simp [chunkLoop]

/-! Claim theorems. -/

/-- C4: `queryCounter` decodes response bytes [0] (low) and [1] (high) as a
    little-endian uint16 and returns that value; the spec's instances
    [0x05, 0x00] ↦ 5, [0xFF, 0x00] ↦ 255, [0x00, 0x01] ↦ 256 follow. -/
theorem decodeCounter_little_endian (a b : Nat) (rest : List Nat)
    (ha : a < 256) (_hb : b < 256) :
    decodeCounter (a :: b :: rest) = a + 256 * b := by
  have hd : decodeCounter (a :: b :: rest) = a ||| (b <<< 8) := rfl
  rw [hd]
  exact lor_shiftLeft_eq_add ha

/-- Witness for C4 at the spec's third instance: [0x00, 0x01] decodes to 256. -/
theorem decodeCounter_little_endian_witness :
    (0 : Nat) < 256 ∧ (1 : Nat) < 256 ∧ decodeCounter [0x00, 0x01] = 256 :=
  ⟨by decide, by decide,
    (decodeCounter_little_endian 0 1 [] (by decide) (by decide)).trans (by decide)⟩

/-- C8: `splitForSend` on a 128-byte payload with the length-prefixed 3-chunk
    scheme yields exactly 3 reports with data lengths 62, 62, 4 in that order,
    each one a 63-byte report of length byte, chunk bytes and zero padding;
    any payload whose length is not 128 is rejected immediately with the
    invalid-length error and no report is produced. -/
theorem splitForSend_spec (payload : List Nat) :
    (payload.length ≠ 128 → sendFragmentedData payload = Except.error HidError.uuidLength) ∧
    (payload.length = 128 →
      sendFragmentedData payload = Except.ok
        [(GET_LICENSE_OUT, 62 :: payload.take 62),
         (GET_LICENSE_OUT, 62 :: (payload.drop 62).take 62),
         (GET_LICENSE_OUT, 4 :: (payload.drop 124 ++ List.replicate 58 0))] ∧
      (62 :: payload.take 62).length = 63 ∧
      (62 :: (payload.drop 62).take 62).length = 63 ∧
      (4 :: (payload.drop 124 ++ List.replicate 58 0)).length = 63) := by
  constructor
  · intro h
    simp [sendFragmentedData, h]
  · intro h
    have h1 : (payload.take 62).length = 62 := by simp [h]
    have h2 : ((payload.drop 62).take 62).length = 62 := by simp [h]
    have h4 : (payload.drop 124).length = 4 := by simp [h]
    have h3 : (payload.drop 124).take 4 = payload.drop 124 :=
      List.take_of_length_le (by omega)
    refine ⟨?_, by simp [h1], by simp [h2], by simp [h4]⟩
    simp [sendFragmentedData, h, mkLenPrefixedReport, h1, h2, h3, h4]

/-- Witness for C8 on a concrete 128-byte payload. -/
theorem splitForSend_spec_witness :
    (List.replicate 128 5).length = 128 ∧
    sendFragmentedData (List.replicate 128 5) = Except.ok
      [(GET_LICENSE_OUT, 62 :: (List.replicate 128 5).take 62),
       (GET_LICENSE_OUT, 62 :: ((List.replicate 128 5).drop 62).take 62),
       (GET_LICENSE_OUT, 4 :: ((List.replicate 128 5).drop 124 ++ List.replicate 58 0))] :=
  ⟨by simp, ((splitForSend_spec (List.replicate 128 5)).2 (by simp)).1⟩

/-- C2 (amended): the reassembly output buffer, when one is produced, is
    exactly the declared 256 bytes — the writes never grow it — because a
    fragment whose data would exceed the remaining capacity aborts the
    reassembly with the runtime's range error instead of being truncated to
    the remaining capacity. -/
theorem reassembly_never_exceeds_declared_length :
    (∀ (packets : List (List Nat)) (buf : List Nat),
       receiveFragmentedData packets = Except.ok buf → buf.length = 256) ∧
    (∀ (st : RxState) (p : List Nat),
       st.buffer.length < st.offset + ((p.drop 1).take (p.headD 0)).length →
       rxStep st p = Except.error HidError.rangeError) := by
  constructor
  · intro packets buf h
    rw [receiveFragmentedData, reassembleFromReceive] at h
    cases hrx : rxLoop 5 packets { buffer := List.replicate 256 0, offset := 0 } with
    | error e =>
      rw [hrx] at h
      simp [Except.map] at h
    | ok st2 =>
      rw [hrx] at h
      have hb : st2.buffer = buf := by simpa [Except.map] using h
      have hlen := rxLoop_ok_length hrx
      rw [hb] at hlen
      simpa using hlen
  · intro st p hlt
    simp only [rxStep]
    rw [if_pos hlt]

/-- Counterexample to C2 as stated: five reports each declaring 255 data
    bytes (62 actually present) make the second write overflow the remaining
    capacity, and reassembly fails with the range error instead of truncating
    the fragment to fit. -/
theorem reassembly_overflow_errors_cex :
    receiveFragmentedData (List.replicate 5 (255 :: List.replicate 62 1)) =
      Except.error HidError.rangeError := rfl

/-- Witness for C2's amended theorem on a concrete packet sequence. -/
theorem reassembly_never_exceeds_declared_length_witness :
    receiveFragmentedData [[2, 9, 9], [1, 5], [0], [0], [0]] =
      Except.ok (9 :: 9 :: 5 :: List.replicate 253 0) ∧
    (9 :: 9 :: 5 :: List.replicate 253 0).length = 256 :=
  ⟨rfl, reassembly_never_exceeds_declared_length.1 [[2, 9, 9], [1, 5], [0], [0], [0]] _ rfl⟩

/-- C1 (amended): when all 5 license-response reports arrive, the exchange
    succeeds even if their length-prefixed chunks total fewer than 256 bytes,
    returning the declared-length 256-byte buffer with the unwritten tail
    still zero; the exchange fails with Timeout only when fewer than 5
    reports arrive before their deadlines. -/
theorem exchange_all_five_or_timeout :
    (∀ (uuid : List Nat) (packets : List (List Nat)),
       uuid.length = 128 → packets.length = 5 →
       (packets.map (fun p => p.headD 0)).sum < 256 →
       ∃ buf, exchangeUuidForLicense uuid packets = Except.ok buf ∧ buf.length = 256) ∧
    (∀ (uuid : List Nat) (packets : List (List Nat)),
       uuid.length = 128 → packets.length < 5 → (∀ p ∈ packets, p.headD 0 ≤ 62) →
       exchangeUuidForLicense uuid packets = Except.error HidError.timeout) := by
  have hsend : ∀ uuid : List Nat, uuid.length = 128 →
      ∃ rs, sendFragmentedData uuid = Except.ok rs := by
    intro uuid h
    refine ⟨[(GET_LICENSE_OUT, mkLenPrefixedReport (uuid.take 62)),
             (GET_LICENSE_OUT, mkLenPrefixedReport ((uuid.drop 62).take 62)),
             (GET_LICENSE_OUT, mkLenPrefixedReport ((uuid.drop 124).take 4))], ?_⟩
    simp [sendFragmentedData, h]
  constructor
  · intro uuid packets hu h5 hsum
    obtain ⟨rs, hrs⟩ := hsend uuid hu
    rw [exchangeUuidForLicense, hrs]
    obtain ⟨st2, hst2⟩ := @rxLoop_ok_of_sum packets 5 ⟨List.replicate 256 0, 0⟩ h5
      (by simpa using Nat.le_of_lt hsum)
    refine ⟨st2.buffer, ?_, ?_⟩
    · rw [receiveFragmentedData, reassembleFromReceive, hst2]
      rfl
    · have hlen := rxLoop_ok_length hst2
      simpa using hlen
  · intro uuid packets hu h5 hle
    obtain ⟨rs, hrs⟩ := hsend uuid hu
    rw [exchangeUuidForLicense, hrs]
    rw [receiveFragmentedData, reassembleFromReceive]
    rw [rxLoop_timeout_of_short h5 hle (by simp; omega)]
    rfl

/-- Counterexample to C1 as stated: five reports whose chunks total 0 bytes
    (each length byte 0) do not fail the exchange — it returns the 256-byte
    buffer zero-padded to the declared length. -/
theorem exchange_short_returns_padded_cex :
    exchangeUuidForLicense (List.replicate 128 0) (List.replicate 5 (List.replicate 63 0)) =
      Except.ok (List.replicate 256 0) ∧
    (Except.ok (List.replicate 256 0) : Except HidError (List Nat)) ≠
      Except.error HidError.timeout :=
  ⟨rfl, fun h => Except.noConfusion h⟩

/-- Witness for C1's amended theorem: two reports instead of five make the
    exchange time out. -/
theorem exchange_all_five_or_timeout_witness :
    exchangeUuidForLicense (List.replicate 128 2) [3 :: List.replicate 62 7, [0, 1]] =
      Except.error HidError.timeout :=
  exchange_all_five_or_timeout.2 (List.replicate 128 2) [3 :: List.replicate 62 7, [0, 1]]
    (by simp) (by simp) (by
      intro p hp
      rcases List.mem_cons.1 hp with rfl | hp2
      · simp
      · rcases List.mem_cons.1 hp2 with rfl | hp3
        · simp
        · simp at hp3)

/-- C3: for every 128-byte payload, reassembling with the length-prefixed
    receive convention (3 packets, 128 bytes declared) the exact report
    sequence produced by the send-side split reproduces the payload byte for
    byte, when no report is altered in transit. -/
theorem uuid_roundtrip (payload : List Nat) (h : payload.length = 128)
    (reports : List (Nat × List Nat))
    (hs : sendFragmentedData payload = Except.ok reports) :
    reassembleFromReceive 3 128 (reports.map Prod.snd) = Except.ok payload := by
  have hne : ¬ payload.length ≠ 128 := by omega
  rw [sendFragmentedData, if_neg hne] at hs
  have hrep := (Except.ok.inj hs).symm
  subst hrep
  have hc1 : (payload.take 62).length = 62 := by simp [h]
  have hc2 : ((payload.drop 62).take 62).length = 62 := by simp [h]
  have hc3 : ((payload.drop 124).take 4).length = 4 := by simp [h]
  have hr1 : mkLenPrefixedReport (payload.take 62) = 62 :: payload.take 62 := by
    rw [mkLenPrefixedReport, hc1]
    simp
  have hr2 : mkLenPrefixedReport ((payload.drop 62).take 62) =
      62 :: (payload.drop 62).take 62 := by
    rw [mkLenPrefixedReport, hc2]
    simp
  have hr3 : mkLenPrefixedReport ((payload.drop 124).take 4) =
      4 :: ((payload.drop 124).take 4 ++ List.replicate 58 0) := by
    rw [mkLenPrefixedReport, hc3]
  have hs1 : rxStep ⟨List.replicate 128 0, 0⟩ (62 :: payload.take 62) =
      Except.ok ⟨payload.take 62 ++ List.replicate 66 0, 62⟩ := by
    simp [rxStep, setBytes, List.take_take, hc1]
  have hs2 : rxStep ⟨payload.take 62 ++ List.replicate 66 0, 62⟩
      (62 :: (payload.drop 62).take 62) =
      Except.ok ⟨payload.take 62 ++ ((payload.drop 62).take 62 ++ List.replicate 4 0), 124⟩ := by
    have hd : (payload.take 62).length ≤ 124 := by omega
    simp [rxStep, setBytes, List.take_take, hc2, List.take_left' hc1,
      List.drop_append_eq_append_drop, List.drop_eq_nil_of_le hd, hc1]
  have hs3 : rxStep ⟨payload.take 62 ++ ((payload.drop 62).take 62 ++ List.replicate 4 0), 124⟩
      (4 :: ((payload.drop 124).take 4 ++ List.replicate 58 0)) =
      Except.ok ⟨(payload.take 62 ++ ((payload.drop 62).take 62 ++ List.replicate 4 0)).take 124
        ++ ((payload.drop 124).take 4
        ++ (payload.take 62 ++ ((payload.drop 62).take 62 ++ List.replicate 4 0)).drop 128), 128⟩ := by
    have hdata : ((payload.drop 124).take 4 ++ List.replicate 58 0).take 4 =
        (payload.drop 124).take 4 := by
      rw [List.take_append_of_le_length hc3.ge]
      simp [List.take_take]
    simp [rxStep, setBytes, List.take_take, hdata, hc3, h]
  have e1 : rxLoop 3 [62 :: payload.take 62, 62 :: (payload.drop 62).take 62,
      4 :: ((payload.drop 124).take 4 ++ List.replicate 58 0)] ⟨List.replicate 128 0, 0⟩ =
      rxLoop 2 [62 :: (payload.drop 62).take 62,
        4 :: ((payload.drop 124).take 4 ++ List.replicate 58 0)]
        ⟨payload.take 62 ++ List.replicate 66 0, 62⟩ :=
    rxLoop_cons_ok 2 _ hs1
  have e2 : rxLoop 2 [62 :: (payload.drop 62).take 62,
      4 :: ((payload.drop 124).take 4 ++ List.replicate 58 0)]
      ⟨payload.take 62 ++ List.replicate 66 0, 62⟩ =
      rxLoop 1 [4 :: ((payload.drop 124).take 4 ++ List.replicate 58 0)]
        ⟨payload.take 62 ++ ((payload.drop 62).take 62 ++ List.replicate 4 0), 124⟩ :=
    rxLoop_cons_ok 1 _ hs2
  have e3 : rxLoop 1 [4 :: ((payload.drop 124).take 4 ++ List.replicate 58 0)]
      ⟨payload.take 62 ++ ((payload.drop 62).take 62 ++ List.replicate 4 0), 124⟩ =
      rxLoop 0 []
        ⟨(payload.take 62 ++ ((payload.drop 62).take 62 ++ List.replicate 4 0)).take 124
          ++ ((payload.drop 124).take 4
          ++ (payload.take 62 ++ ((payload.drop 62).take 62 ++ List.replicate 4 0)).drop 128),
          128⟩ :=
    rxLoop_cons_ok 0 _ hs3
  have hbuf : (payload.take 62 ++ ((payload.drop 62).take 62 ++ List.replicate 4 0)).take 124
      ++ ((payload.drop 124).take 4
      ++ (payload.take 62 ++ ((payload.drop 62).take 62 ++ List.replicate 4 0)).drop 128) =
      payload := by
    have htake124 : (payload.take 62 ++ ((payload.drop 62).take 62 ++ List.replicate 4 0)).take 124
        = payload.take 62 ++ (payload.drop 62).take 62 := by
      rw [List.take_append_eq_append_take, List.take_of_length_le (by omega), hc1,
        List.take_left' hc2]
    have hdrop128 : (payload.take 62 ++ ((payload.drop 62).take 62 ++ List.replicate 4 0)).drop 128
        = [] :=
      List.drop_eq_nil_of_le (by simp [hc1, hc2])
    have h3 : (payload.drop 124).take 4 = payload.drop 124 :=
      List.take_of_length_le (by simp [h])
    have hdd : (payload.drop 62).drop 62 = payload.drop 124 := by
      rw [List.drop_drop]
    rw [htake124, hdrop128, h3, List.append_nil, List.append_assoc, ← hdd,
      List.take_append_drop, List.take_append_drop]
  rw [reassembleFromReceive]
  have hmap : List.map Prod.snd (List.map (fun chunk => (GET_LICENSE_OUT, mkLenPrefixedReport chunk))
      [payload.take 62, (payload.drop 62).take 62, (payload.drop 124).take 4]) =
      [62 :: payload.take 62, 62 :: (payload.drop 62).take 62,
        4 :: ((payload.drop 124).take 4 ++ List.replicate 58 0)] := by
    simp [hr1, hr2, hr3]
  rw [hmap, e1, e2, e3, rxLoop]
  rw [Except.map, hbuf]

/-- Witness for C3 on a concrete 128-byte payload. -/
theorem uuid_roundtrip_witness :
    sendFragmentedData (List.range 128) = Except.ok
      [(GET_LICENSE_OUT, 62 :: (List.range 128).take 62),
       (GET_LICENSE_OUT, 62 :: ((List.range 128).drop 62).take 62),
       (GET_LICENSE_OUT, 4 :: ((List.range 128).drop 124 ++ List.replicate 58 0))] ∧
    reassembleFromReceive 3 128
      ([(GET_LICENSE_OUT, 62 :: (List.range 128).take 62),
        (GET_LICENSE_OUT, 62 :: ((List.range 128).drop 62).take 62),
        (GET_LICENSE_OUT, 4 :: ((List.range 128).drop 124 ++ List.replicate 58 0))].map
          Prod.snd) = Except.ok (List.range 128) :=
  ⟨rfl, uuid_roundtrip (List.range 128) rfl _ rfl⟩

/-- C5 (amended): `Disconnected` ("Device disconnected") is reported only when
    the wait begins with no open device; a disconnect occurring while the wait
    is outstanding does not resolve the wait — the trace with the disconnect
    removed yields the same outcome, so the wait later resolves by match or
    timeout — and a resolved wait is never re-resolved (exactly-once). -/
theorem wait_resolution_exactly_once :
    (∀ (expectedId deadline : Nat) (events : List (Nat × HidEv)),
       receivePacket false expectedId deadline events =
         Except.error HidError.deviceDisconnected) ∧
    (∀ (opened : Bool) (expectedId deadline t : Nat) (evs1 evs2 : List (Nat × HidEv)),
       t < deadline →
       receivePacket opened expectedId deadline (evs1 ++ (t, HidEv.disconnect) :: evs2) =
         receivePacket opened expectedId deadline (evs1 ++ evs2)) ∧
    (∀ (expectedId deadline : Nat) (r : Except HidError (List Nat))
       (events : List (Nat × HidEv)),
       events.foldl (waitStep expectedId deadline) (WaitState.resolved r) =
         WaitState.resolved r) := by
  refine ⟨fun _ _ _ => rfl, ?_, foldl_waitStep_resolved⟩
  intro opened expectedId deadline t evs1 evs2 ht
  cases opened with
  | false => rfl
  | true =>
    simp only [receivePacket]
    rw [List.foldl_append, List.foldl_append, List.foldl_cons, waitStep_disconnect ht]

/-- Counterexample to C5 as stated: with the device open, a disconnect at
    time 5 (well before the 2000 ms deadline) and no matching report, the
    wait fails with Timeout, not with a Disconnected outcome. -/
theorem midwait_disconnect_times_out_cex :
    receivePacket true 1 2000 [(5, HidEv.disconnect)] = Except.error HidError.timeout ∧
    (Except.error HidError.timeout : Except HidError (List Nat)) ≠
      Except.error HidError.deviceDisconnected :=
  ⟨rfl, fun hcontra => HidError.noConfusion (Except.error.inj hcontra)⟩

/-- Witness for C5's amended theorem at a concrete trace. -/
theorem wait_resolution_exactly_once_witness :
    (5 : Nat) < 2000 ∧
    receivePacket true 1 2000 ([] ++ (5, HidEv.disconnect) :: []) =
      receivePacket true 1 2000 ([] ++ []) :=
  ⟨by decide, wait_resolution_exactly_once.2.1 true 1 2000 5 [] [] (by decide)⟩

/-- C6: when every report matching the awaited id arrives at or after the
    deadline, the wait fails with Timeout; the late matching reports in the
    trace have no observable effect (the timed-out wait stays timed out). -/
theorem awaitReport_timeout_deregisters (expectedId deadline : Nat)
    (events : List (Nat × HidEv))
    (h : ∀ t data, (t, HidEv.report expectedId data) ∈ events → deadline ≤ t) :
    receivePacket true expectedId deadline events = Except.error HidError.timeout := by
  have hfold := foldl_waitStep_no_early_match events WaitState.waiting h (Or.inl rfl)
  simp only [receivePacket]
  rcases hfold with h1 | h1 <;> rw [h1] <;> simp

/-- Witness for C6: a non-matching report at 100 ms and a matching one at
    2500 ms (after the 2000 ms deadline) still time the wait out. -/
theorem awaitReport_timeout_deregisters_witness :
    receivePacket true 1 2000 [(100, HidEv.report 2 [1]), (2500, HidEv.report 1 [7])] =
      Except.error HidError.timeout :=
  awaitReport_timeout_deregisters 1 2000 _ (by
    intro t data hmem
    simp [List.mem_cons] at hmem
    obtain ⟨h1, -⟩ := hmem
    omega)

/-- C7: the wait resolves with the payload of the first matching pre-deadline
    report; pre-deadline occurrences that are not matching reports
    (non-matching ids, disconnects) are ignored and later occurrences cannot
    change the resolution. -/
theorem awaitReport_first_match (expectedId deadline t : Nat) (data : List Nat)
    (pre post : List (Nat × HidEv)) (ht : t < deadline)
    (hpre : ∀ ev ∈ pre, ev.fst < deadline ∧ ∀ d, ev.snd ≠ HidEv.report expectedId d) :
    receivePacket true expectedId deadline
      (pre ++ (t, HidEv.report expectedId data) :: post) = Except.ok data := by
  simp only [receivePacket]
  rw [List.foldl_append, foldl_waitStep_ignored pre hpre, List.foldl_cons]
  have hstep : waitStep expectedId deadline WaitState.waiting (t, HidEv.report expectedId data)
      = WaitState.resolved (Except.ok data) := by
    simp [waitStep, Nat.not_le.2 ht]
  rw [hstep, foldl_waitStep_resolved]
  simp

/-- Witness for C7: one wrong-id report and one disconnect precede the match;
    a later matching report is ignored. -/
theorem awaitReport_first_match_witness :
    receivePacket true 1 2000
      ([(10, HidEv.report 9 [1]), (20, HidEv.disconnect)] ++
        (30, HidEv.report 1 [5, 6]) :: [(40, HidEv.report 1 [9])]) = Except.ok [5, 6] :=
  awaitReport_first_match 1 2000 30 [5, 6] _ _ (by decide) (by
    intro ev hev
    simp [List.mem_cons] at hev
    rcases hev with rfl | rfl
    · exact ⟨by decide, fun d => by simp⟩
    · exact ⟨by decide, fun d => by simp⟩)

/-- C9 (amended): every operation on a session whose Connection is not open
    fails immediately with no transport call; the send-side operations fail
    with the "Device not connected" error (NotConnected), while the
    receive/await path fails with its own entry error, whose message is
    "Device disconnected", not the NotConnected one. -/
theorem closed_connection_no_transport :
    (∀ (reportId : Nat) (data : List Nat),
       sendReport false reportId data = (Except.error HidError.deviceNotConnected, [])) ∧
    (∀ (expectedId deadline : Nat) (events : List (Nat × HidEv)),
       receivePacket false expectedId deadline events =
         Except.error HidError.deviceDisconnected) ∧
    (∀ events : List (Nat × HidEv),
       getCounter false events = (Except.error HidError.deviceNotConnected, [])) ∧
    (∀ payload : List Nat, payload.length = 128 →
       sendFragmentedDataOp false payload = (Except.error HidError.deviceNotConnected, [])) ∧
    (∀ license : List Nat, license.length = 256 →
       writeLicense false license = (Except.error HidError.deviceNotConnected, [])) ∧
    (∀ license : List Nat, license.length = 256 →
       writeLicenseChunked false license = (Except.error HidError.deviceNotConnected, [])) := by
  refine ⟨fun _ _ => rfl, fun _ _ _ => rfl, fun _ => rfl, ?_, ?_, ?_⟩
  · intro payload hp
    simp [sendFragmentedDataOp, sendFragmentedData, hp, sendAll, sendReport]
  · intro license hl
    rw [writeLicense, if_neg (by omega)]
    rfl
  · intro license hl
    rw [writeLicenseChunked, if_neg (by omega)]
    rw [chunkLoop_eq (List.length_pos.mp (by omega))]
    exact sendAll_closed (by simp)

/-- Counterexample to C9 as stated: awaiting a report on a session with no
    open Connection fails with the "Device disconnected" entry error, which
    is a different error from the NotConnected ("Device not connected") one
    that the claim requires for every send/receive operation. -/
theorem receive_entry_error_is_disconnected_cex :
    receivePacket false 3 2000 [] = Except.error HidError.deviceDisconnected ∧
    HidError.deviceDisconnected ≠ HidError.deviceNotConnected :=
  ⟨rfl, by decide⟩

/-- Witness for C9's amended theorem: a valid-length license write on a
    closed session fails with NotConnected and sends nothing. -/
theorem closed_connection_no_transport_witness :
    (List.replicate 256 1).length = 256 ∧
    writeLicense false (List.replicate 256 1) =
      (Except.error HidError.deviceNotConnected, []) :=
  ⟨by simp, closed_connection_no_transport.2.2.2.2.1 (List.replicate 256 1) (by simp)⟩

/-- C10: the chunked `writeLicense` on a 256-byte license sends exactly 5
    reports on the store-license id, each 63 bytes: report k carries license
    bytes [63k, min(63(k+1), 256)) at offset 0, and the last report is the
    final 4 license bytes followed by 59 zero-padding bytes. -/
theorem writeLicenseChunked_five_reports (license : List Nat) (h : license.length = 256) :
    writeLicenseChunked true license =
      (Except.ok (), [
        (STORE_LICENSE, license.take 63),
        (STORE_LICENSE, (license.drop 63).take 63),
        (STORE_LICENSE, (license.drop 126).take 63),
        (STORE_LICENSE, (license.drop 189).take 63),
        (STORE_LICENSE, license.drop 252 ++ List.replicate 59 0)]) ∧
    (license.take 63).length = 63 ∧ ((license.drop 63).take 63).length = 63 ∧
    ((license.drop 126).take 63).length = 63 ∧ ((license.drop 189).take 63).length = 63 ∧
    (license.drop 252 ++ List.replicate 59 0).length = 63 := by
  have l1 : (license.take 63).length = 63 := by simp [h]
  have l2 : ((license.drop 63).take 63).length = 63 := by simp [h]
  have l3 : ((license.drop 126).take 63).length = 63 := by simp [h]
  have l4 : ((license.drop 189).take 63).length = 63 := by simp [h]
  have l5 : (license.drop 252).length = 4 := by simp [h]
  refine ⟨?_, l1, l2, l3, l4, by simp [l5]⟩
  have c1 : chunkLoop license = (STORE_LICENSE, license.take 63) :: chunkLoop (license.drop 63) := by
    rw [chunkLoop_eq (List.length_pos.mp (by omega)), l1]
    simp
  have c2 : chunkLoop (license.drop 63) =
      (STORE_LICENSE, (license.drop 63).take 63) :: chunkLoop (license.drop 126) := by
    rw [chunkLoop_eq (List.length_pos.mp (by simp [h])), l2]
    simp [List.drop_drop]
  have c3 : chunkLoop (license.drop 126) =
      (STORE_LICENSE, (license.drop 126).take 63) :: chunkLoop (license.drop 189) := by
    rw [chunkLoop_eq (List.length_pos.mp (by simp [h])), l3]
    simp [List.drop_drop]
  have c4 : chunkLoop (license.drop 189) =
      (STORE_LICENSE, (license.drop 189).take 63) :: chunkLoop (license.drop 252) := by
    rw [chunkLoop_eq (List.length_pos.mp (by simp [h])), l4]
    simp [List.drop_drop]
  have c5 : chunkLoop (license.drop 252) =
      [(STORE_LICENSE, license.drop 252 ++ List.replicate 59 0)] := by
    have ht5 : (license.drop 252).take 63 = license.drop 252 :=
      List.take_of_length_le (by omega)
    have hd5 : (license.drop 252).drop 63 = [] :=
      List.drop_eq_nil_of_le (by omega)
    rw [chunkLoop_eq (List.length_pos.mp (by simp [h]))]
    rw [ht5, l5, hd5]
    simp [chunkLoop]
  rw [writeLicenseChunked, if_neg (by omega), c1, c2, c3, c4, c5, sendAll_open]

/-- Witness for C10 on a concrete 256-byte license. -/
theorem writeLicenseChunked_five_reports_witness :
    (List.replicate 256 1).length = 256 ∧
    writeLicenseChunked true (List.replicate 256 1) =
      (Except.ok (), [
        (STORE_LICENSE, (List.replicate 256 1).take 63),
        (STORE_LICENSE, ((List.replicate 256 1).drop 63).take 63),
        (STORE_LICENSE, ((List.replicate 256 1).drop 126).take 63),
        (STORE_LICENSE, ((List.replicate 256 1).drop 189).take 63),
        (STORE_LICENSE, (List.replicate 256 1).drop 252 ++ List.replicate 59 0)]) :=
  ⟨by simp, (writeLicenseChunked_five_reports (List.replicate 256 1) (by simp)).1⟩

end LicenceTool
